import Mathlib

/-!
Shallow embedding of prosper_config.py (ProsperCommon): the layered config
loader and the 4-tier option resolver.

Modelling choices:
- A parsed config document is an association list from section names to
  association lists from key names to string values (what configparser
  produces after parsing; interpolation is delegated to the external parser
  and not modelled).
- Python values reaching get_option (args_option / args_default) are
  modelled by the inductive PyVal, so that the type of a default is
  observable in the result.
- The filesystem is an association list from path to FileResult: a path can
  be absent (open raises IOError), present but unparseable (read_file
  raises a non-IOError parser exception), or present with parsed content.
- Python exceptions escaping a function are modelled by Except; the
  distinction between KeyError and TypeError matters in get_option because
  the source catches only KeyError.
- warnings.warn calls are modelled by a list of ConfigWarning values
  returned alongside the result.
-/

deriving instance DecidableEq for Except

namespace Prosper

/-- A Python value as passed to or returned from get_option: the config
tiers produce strings, while the runtime argument and the default may be of
any type (modelled here by None, str and int, enough to observe that types
are preserved). -/
inductive PyVal where
  | none
  | str (s : String)
  | int (n : Int)
  deriving DecidableEq, Repr

/-- Python exceptions that can escape get_option: KeyError from a missing
section or key in a ConfigParser, TypeError from subscripting None. -/
inductive PyErr where
  | keyError
  | typeError
  deriving DecidableEq, Repr

/-- A parsed config document: sections mapping to key/value entries. -/
abbrev ConfigDoc := List (String × List (String × String))

/-- Lookup of doc[section_name][key_name], returning none when the section
or the key is missing (the Python code observes this as a KeyError). -/
def lookupKey (doc : ConfigDoc) (section_name key_name : String) : Option String :=
  (doc.lookup section_name).bind (fun sec => sec.lookup key_name)

/-- Outcome of opening and parsing one path. -/
inductive FileResult where
  | missing
  | parseError
  | content (doc : ConfigDoc)
  deriving DecidableEq, Repr

/-- The filesystem: paths mapped to their file outcome; a path not in the
list is missing. -/
abbrev FileSystem := List (String × FileResult)

/-- What open + read_file observes at a path. -/
def readFile (fs : FileSystem) (p : String) : FileResult :=
  (fs.lookup p).getD FileResult.missing

/-- os.path.isfile: true when the path exists as a file (even one whose
content would fail to parse). -/
def isfile (fs : FileSystem) (p : String) : Bool :=
  match fs.lookup p with
  | Option.some (FileResult.content _) => true
  | Option.some FileResult.parseError => true
  | Option.some FileResult.missing => false
  | Option.none => false

/-- Python str.replace for a nonempty pattern: replace every non-overlapping
occurrence left to right. Structural recursion on a fuel argument (one unit
per consumed character) so the kernel can evaluate it. -/
def pyReplaceAux (pat rep : List Char) : Nat → List Char → List Char
  | _, [] => []
  | 0, l => l
  | Nat.succ fuel, c :: rest =>
    if pat ≠ [] ∧ pat.isPrefixOf (c :: rest) then
      rep ++ pyReplaceAux pat rep fuel (rest.drop (pat.length - 1))
    else
      c :: pyReplaceAux pat rep fuel rest

/-- Python s.replace(pat, rep). The source only ever calls it with the
nonempty pattern ".cfg"; the empty-pattern behaviour of Python (inserting
rep around every character) is unreachable and not modelled. -/
def pyReplace (s pat rep : String) : String :=
  if pat.isEmpty then s
  else String.mk (pyReplaceAux pat.data rep.data s.data.length s.data)

/-- get_local_config_filepath(config_filepath, force_local): replace ".cfg"
with "_local.cfg"; return the candidate when it is a file on disk or
force_local is set, else return config_filepath unchanged. -/
def get_local_config_filepath (fs : FileSystem) (config_filepath : String)
    (force_local : Bool) : String :=
  let local_config_filepath := pyReplace config_filepath ".cfg" "_local.cfg"
  if isfile fs local_config_filepath || force_local then
    local_config_filepath
  else
    config_filepath

/-- An error escaping a loader function: IOError from open, or any other
exception (a parse error) from read_file. -/
inductive LoadErr where
  | ioErr (p : String)
  | parseErr (p : String)
  deriving DecidableEq, Repr

/-- Warnings emitted through the warnings module. -/
inductive ConfigWarning where
  | noLocalConfig (p : String)
  | deprecation
  deriving DecidableEq, Repr

/-- Open a path and parse it into a document: IOError when the file is
missing, a parser exception when unparseable, else the parsed document. -/
def readDoc (fs : FileSystem) (p : String) : Except LoadErr ConfigDoc :=
  match readFile fs p with
  | FileResult.missing => Except.error (LoadErr.ioErr p)
  | FileResult.parseError => Except.error (LoadErr.parseErr p)
  | FileResult.content doc => Except.ok doc

/-- Lines 150-152 of get_configs: the local path actually attempted, the
forced derived path unless a truthy override was supplied. -/
def localSourcePath (fs : FileSystem) (config_filepath : String)
    (local_filepath_override : Option String) : String :=
  match local_filepath_override with
  | Option.some s =>
    if s.isEmpty then get_local_config_filepath fs config_filepath true else s
  | Option.none => get_local_config_filepath fs config_filepath true

/-- Result of get_configs: the two documents (local possibly None) and the
warnings emitted along the way. -/
structure ConfigsResult where
  global_config : ConfigDoc
  local_config : Option ConfigDoc
  warnings : List ConfigWarning
  deriving DecidableEq, Repr

/-- get_configs(config_filepath, local_filepath_override): load the master
document (any failure propagates), then attempt the local document at the
forced derived path (or the override); IOError there becomes a warning and
a None local document, while any other failure propagates. -/
def get_configs (fs : FileSystem) (config_filepath : String)
    (local_filepath_override : Option String) : Except LoadErr ConfigsResult :=
  match readDoc fs config_filepath with
  | Except.error e => Except.error e
  | Except.ok global_config =>
    let local_filepath := localSourcePath fs config_filepath local_filepath_override
    match readDoc fs local_filepath with
    | Except.error (LoadErr.ioErr p) =>
      Except.ok ⟨global_config, Option.none, [ConfigWarning.noLocalConfig p]⟩
    | Except.error e => Except.error e
    | Except.ok local_config =>
      Except.ok ⟨global_config, Option.some local_config, []⟩

/-- The state of a constructed ProsperConfig object. -/
structure ProsperConfig where
  config_filename : String
  local_config_filename : String
  global_config : ConfigDoc
  local_config : Option ConfigDoc
  deriving DecidableEq, Repr

/-- ProsperConfig.__init__(config_filename, local_filepath_override):
record config_filename, record the unforced derived local path (or a truthy
override), then populate both documents via get_configs; any loading error
propagates out of construction. -/
def ProsperConfig.init (fs : FileSystem) (config_filename : String)
    (local_filepath_override : Option String) :
    Except LoadErr (List ConfigWarning × ProsperConfig) :=
  let base := get_local_config_filepath fs config_filename false
  let local_config_filename :=
    match local_filepath_override with
    | Option.some s => if s.isEmpty then base else s
    | Option.none => base
  match get_configs fs config_filename local_filepath_override with
  | Except.error e => Except.error e
  | Except.ok r =>
    Except.ok (r.warnings,
      ⟨config_filename, local_config_filename, r.global_config, r.local_config⟩)

/-- ProsperConfig.get_option(section_name, key_name, args_option,
args_default). Tier 1: args_option different from args_default returns
args_option. Tier 2: local config lookup inside try/except KeyError; when
self.local_config is None, subscripting raises TypeError, which the except
clause does not catch, so it escapes. Tier 3: master lookup, KeyError
caught. Tier 4: args_default. -/
def ProsperConfig.get_option (self : ProsperConfig) (section_name key_name : String)
    (args_option args_default : PyVal) : Except PyErr PyVal :=
  if args_option ≠ args_default then
    Except.ok args_option
  else
    match self.local_config with
    | Option.none => Except.error PyErr.typeError
    | Option.some doc =>
      match lookupKey doc section_name key_name with
      | Option.some local_option => Except.ok (PyVal.str local_option)
      | Option.none =>
        match lookupKey self.global_config section_name key_name with
        | Option.some global_option => Except.ok (PyVal.str global_option)
        | Option.none => Except.ok args_default

/-- get_config(config_filepath, local_override): deprecated single-document
loader. Always emits a DeprecationWarning, picks the unforced derived local
path unless local_override forces the tracked path, and loads exactly that
one document, propagating any failure. -/
def get_config (fs : FileSystem) (config_filepath : String)
    (local_override : Bool) : List ConfigWarning × Except LoadErr ConfigDoc :=
  let real_config_filepath := get_local_config_filepath fs config_filepath false
  let real_config_filepath :=
    if local_override then config_filepath else real_config_filepath
  ([ConfigWarning.deprecation], readDoc fs real_config_filepath)

/-! Concrete inputs used by closed evidence theorems and witnesses. -/

/-- A constructed resolver whose master defines [api] timeout = 30 and whose
local document defines [api] timeout = 5 (the spec scenario). -/
def sampleConfig : ProsperConfig :=
  ⟨"config.cfg", "config_local.cfg",
    [("api", [("timeout", "30")])], Option.some [("api", [("timeout", "5")])]⟩

/-- A filesystem holding only the master file config.cfg with
[api] timeout = 30; the derived config_local.cfg is absent. -/
def fsApiMasterOnly : FileSystem :=
  [("config.cfg", FileResult.content [("api", [("timeout", "30")])])]

/-- A filesystem holding only the master file config.cfg with
[db] host = localhost; the derived config_local.cfg is absent. -/
def fsDbMasterOnly : FileSystem :=
  [("config.cfg", FileResult.content [("db", [("host", "localhost")])])]

/-- A filesystem holding only the master file settings.cfg; the derived
settings_local.cfg is absent. -/
def fsSettings : FileSystem :=
  [("settings.cfg", FileResult.content [("api", [("timeout", "30")])])]

/-- A filesystem holding only the master file app.cfg; the derived
app_local.cfg is absent. -/
def fsApp : FileSystem :=
  [("app.cfg", FileResult.content [("api", [("timeout", "30")])])]

/-- C1: whenever the runtime value differs from the fallback default,
get_option returns the runtime value verbatim, for every resolver state —
in particular even when a matching (section, key) entry exists in the local
or master document. -/
theorem get_option_runtime_dominates (self : ProsperConfig)
    (section_name key_name : String) (args_option args_default : PyVal)
    (h : args_option ≠ args_default) :
    self.get_option section_name key_name args_option args_default
      = Except.ok args_option := by
  simp [ProsperConfig.get_option, h]

/-- Witness for C1: with [api] timeout present in both documents, a runtime
value 99 distinct from the default None is returned untouched, with its
non-string type preserved. -/
theorem get_option_runtime_dominates_witness :
    sampleConfig.get_option "api" "timeout" (PyVal.int 99) PyVal.none
      = Except.ok (PyVal.int 99) :=
  get_option_runtime_dominates sampleConfig "api" "timeout" (PyVal.int 99)
    PyVal.none (by decide)

/-- C2: when the runtime value equals the fallback default and the key is
present in the local document, get_option returns the local document string
value, also when the master document holds a (possibly different) value for
the same key. -/
theorem get_option_local_precedence (self : ProsperConfig)
    (section_name key_name : String) (args : PyVal) (ldoc : ConfigDoc)
    (local_value global_value : String)
    (hl : self.local_config = Option.some ldoc)
    (hlv : lookupKey ldoc section_name key_name = Option.some local_value)
    (hgv : lookupKey self.global_config section_name key_name
      = Option.some global_value) :
    self.get_option section_name key_name args args
      = Except.ok (PyVal.str local_value) := by
  simp [ProsperConfig.get_option, hl, hlv]

/-- Witness for C2: the spec scenario — master has [api] timeout = 30,
local has [api] timeout = 5, and get_option("api", "timeout", None, None)
returns "5". -/
theorem get_option_local_precedence_witness :
    sampleConfig.get_option "api" "timeout" PyVal.none PyVal.none
      = Except.ok (PyVal.str "5") :=
  get_option_local_precedence sampleConfig "api" "timeout" PyVal.none
    [("api", [("timeout", "5")])] "5" "30" rfl (by decide) (by decide)

/-- C3 (code bug evidence): constructing a resolver from a filesystem where
the derived local file is absent succeeds with local_config = None, and a
subsequent get_option call whose runtime value equals the default raises
TypeError (subscripting None is not caught by except KeyError) instead of
falling through to the master tier. -/
theorem get_option_absent_local_raises :
    (ProsperConfig.init fsApiMasterOnly "config.cfg" Option.none).map
      (fun r => r.2.get_option "api" "timeout" PyVal.none PyVal.none)
      = Except.ok (Except.error PyErr.typeError) := by decide

/-- C4 (counterexample): with [api] retries absent from both documents,
get_option("api", "retries", None, 3) returns None, not the default 3,
because None differs from 3 and tier 1 fires. -/
theorem get_option_default_counterexample :
    sampleConfig.get_option "api" "retries" PyVal.none (PyVal.int 3)
      = Except.ok PyVal.none
    ∧ sampleConfig.get_option "api" "retries" PyVal.none (PyVal.int 3)
      ≠ Except.ok (PyVal.int 3) := by decide

/-- C4 (amended): when the runtime value equals the fallback default and the
key is absent from both the (present) local document and the master
document, get_option returns the fallback default verbatim, its type
preserved. -/
theorem get_option_default_fallback (self : ProsperConfig)
    (section_name key_name : String) (args : PyVal) (ldoc : ConfigDoc)
    (hl : self.local_config = Option.some ldoc)
    (hlv : lookupKey ldoc section_name key_name = Option.none)
    (hgv : lookupKey self.global_config section_name key_name = Option.none) :
    self.get_option section_name key_name args args = Except.ok args := by
  simp [ProsperConfig.get_option, hl, hlv, hgv]

/-- Witness for C4 (amended): with [api] retries absent from both documents
and the runtime value equal to the default, the int default 3 comes back
verbatim with its type preserved. -/
theorem get_option_default_fallback_witness :
    sampleConfig.get_option "api" "retries" (PyVal.int 3) (PyVal.int 3)
      = Except.ok (PyVal.int 3) :=
  get_option_default_fallback sampleConfig "api" "retries" (PyVal.int 3)
    [("api", [("timeout", "5")])] rfl (by decide) (by decide)

/-- C5 (code bug evidence): [db] host = localhost is present in the master
document, the local document is absent (None after construction), yet
get_option("db", "host", None, None) raises TypeError instead of returning
the master value "localhost". -/
theorem get_option_master_unreachable_when_local_absent :
    lookupKey [("db", [("host", "localhost")])] "db" "host"
      = Option.some "localhost"
    ∧ (ProsperConfig.init fsDbMasterOnly "config.cfg" Option.none).map
        (fun r => r.2.get_option "db" "host" PyVal.none PyVal.none)
        = Except.ok (Except.error PyErr.typeError) := by decide

/-- C6: the candidate local path is the naive substring replacement of
".cfg" by "_local.cfg" (so "config.cfg" yields "config_local.cfg");
get_local_config_filepath returns the candidate when it exists on disk or
the force flag is set, and otherwise returns the master path unchanged. -/
theorem get_local_config_filepath_spec (fs : FileSystem)
    (config_filepath : String) (force_local : Bool) :
    pyReplace "config.cfg" ".cfg" "_local.cfg" = "config_local.cfg"
    ∧ (isfile fs (pyReplace config_filepath ".cfg" "_local.cfg") = true →
        get_local_config_filepath fs config_filepath force_local
          = pyReplace config_filepath ".cfg" "_local.cfg")
    ∧ (force_local = true →
        get_local_config_filepath fs config_filepath force_local
          = pyReplace config_filepath ".cfg" "_local.cfg")
    ∧ (isfile fs (pyReplace config_filepath ".cfg" "_local.cfg") = false →
        force_local = false →
        get_local_config_filepath fs config_filepath force_local
          = config_filepath) := by
  refine ⟨by decide, fun h => ?_, fun h => ?_, fun h h2 => ?_⟩ <;>
    simp [get_local_config_filepath, h]
  · simp [h2]

/-- Witness for C6: on an empty filesystem the forced call yields the
replaced candidate and the unforced call falls back to the master path. -/
theorem get_local_config_filepath_spec_witness :
    get_local_config_filepath [] "config.cfg" true = "config_local.cfg"
    ∧ get_local_config_filepath [] "config.cfg" false = "config.cfg" := by
  have h1 := get_local_config_filepath_spec [] "config.cfg" true
  have h2 := get_local_config_filepath_spec [] "config.cfg" false
  exact ⟨(h1.2.2.1 rfl).trans h1.1, h2.2.2.2 (by decide) rfl⟩

/-- C7: construction errors exactly mirror loading: a missing or unparseable
master propagates; a loaded master with a missing local file succeeds with
the no-local warning and a None local document; a loaded master with an
unparseable local file propagates the parse error. -/
theorem prosper_config_construction (fs : FileSystem) (config_filename : String) :
    (readFile fs config_filename = FileResult.missing →
      ProsperConfig.init fs config_filename Option.none
        = Except.error (LoadErr.ioErr config_filename))
    ∧ (readFile fs config_filename = FileResult.parseError →
      ProsperConfig.init fs config_filename Option.none
        = Except.error (LoadErr.parseErr config_filename))
    ∧ (∀ gdoc, readFile fs config_filename = FileResult.content gdoc →
      readFile fs (localSourcePath fs config_filename Option.none)
        = FileResult.missing →
      ProsperConfig.init fs config_filename Option.none
        = Except.ok
            ([ConfigWarning.noLocalConfig
                (localSourcePath fs config_filename Option.none)],
              ⟨config_filename, get_local_config_filepath fs config_filename false,
                gdoc, Option.none⟩))
    ∧ (∀ gdoc, readFile fs config_filename = FileResult.content gdoc →
      readFile fs (localSourcePath fs config_filename Option.none)
        = FileResult.parseError →
      ProsperConfig.init fs config_filename Option.none
        = Except.error
            (LoadErr.parseErr (localSourcePath fs config_filename Option.none))) := by
  refine ⟨fun h => ?_, fun h => ?_, fun gdoc h h2 => ?_, fun gdoc h h2 => ?_⟩
  · simp [ProsperConfig.init, get_configs, readDoc, h]
  · simp [ProsperConfig.init, get_configs, readDoc, h]
  · simp [ProsperConfig.init, get_configs, readDoc, h, h2]
  · simp [ProsperConfig.init, get_configs, readDoc, h, h2]

/-- Witness for C7: on the filesystem holding only config.cfg, construction
succeeds, emits the no-local warning for config_local.cfg, records the
master document and a None local document. -/
theorem prosper_config_construction_witness :
    ProsperConfig.init fsApiMasterOnly "config.cfg" Option.none
      = Except.ok ([ConfigWarning.noLocalConfig "config_local.cfg"],
          ⟨"config.cfg", "config.cfg", [("api", [("timeout", "30")])],
            Option.none⟩) := by
  have h := (prosper_config_construction fsApiMasterOnly "config.cfg").2.2.1
    [("api", [("timeout", "30")])] (by decide) (by decide)
  rw [h]
  decide

/-- C8 (counterexample): with master settings.cfg loaded and the derived
settings_local.cfg absent, get_configs produces local_config = None — it
does not load the master path as the local source, so the local document is
not a copy of the master document. -/
theorem get_configs_no_master_fallback_counterexample :
    (get_configs fsSettings "settings.cfg" Option.none).map
      ConfigsResult.local_config = Except.ok Option.none
    ∧ (get_configs fsSettings "settings.cfg" Option.none).map
      ConfigsResult.local_config
        ≠ Except.ok (Option.some [("api", [("timeout", "30")])]) :=
  ⟨by decide, by decide⟩

/-- C8 (amended): when the master document loads and the forced derived
local path is missing on disk, get_configs succeeds with the master
document, a None local document, and the no-local warning naming the
derived path — no fallback to the master path as local source happens. -/
theorem get_configs_absent_local (fs : FileSystem) (config_filepath : String)
    (gdoc : ConfigDoc)
    (hm : readFile fs config_filepath = FileResult.content gdoc)
    (hl : readFile fs (get_local_config_filepath fs config_filepath true)
      = FileResult.missing) :
    get_configs fs config_filepath Option.none
      = Except.ok ⟨gdoc, Option.none,
          [ConfigWarning.noLocalConfig
            (get_local_config_filepath fs config_filepath true)]⟩ := by
  simp [get_configs, readDoc, localSourcePath, hm, hl]

/-- Witness for C8 (amended): the settings.cfg filesystem instance. -/
theorem get_configs_absent_local_witness :
    get_configs fsSettings "settings.cfg" Option.none
      = Except.ok ⟨[("api", [("timeout", "30")])], Option.none,
          [ConfigWarning.noLocalConfig "settings_local.cfg"]⟩ := by
  have h := get_configs_absent_local fsSettings "settings.cfg"
    [("api", [("timeout", "30")])] (by decide) (by decide)
  rw [h]
  decide

/-- C9 (counterexample): with only app.cfg on disk and the force-tracked
flag unset, the derived app_local.cfg is missing, yet get_config succeeds
and returns the master document — it did not choose the derived local file. -/
theorem get_config_chose_master_counterexample :
    readFile fsApp "app_local.cfg" = FileResult.missing
    ∧ get_config fsApp "app.cfg" false
        = ([ConfigWarning.deprecation],
            Except.ok [("api", [("timeout", "30")])]) := by decide

/-- C9 (amended): get_config always emits the deprecation warning and loads
exactly one document: the master path when the force-tracked flag is set,
and otherwise the unforced derived path (the derived local file when it
exists on disk, the master path when it does not), propagating the single
load result directly. -/
theorem get_config_deprecated (fs : FileSystem) (config_filepath : String)
    (local_override : Bool) :
    (get_config fs config_filepath local_override).1 = [ConfigWarning.deprecation]
    ∧ (local_override = true →
        (get_config fs config_filepath local_override).2
          = readDoc fs config_filepath)
    ∧ (local_override = false →
        (get_config fs config_filepath local_override).2
          = readDoc fs (get_local_config_filepath fs config_filepath false)) := by
  refine ⟨rfl, fun h => ?_, fun h => ?_⟩ <;> simp [get_config, h]

/-- Witness for C9 (amended): with only app.cfg on disk, the unforced call
loads the master path (the unforced derived path resolves to it). -/
theorem get_config_deprecated_witness :
    (get_config fsApp "app.cfg" false).1 = [ConfigWarning.deprecation]
    ∧ (get_config fsApp "app.cfg" false).2
        = readDoc fsApp (get_local_config_filepath fsApp "app.cfg" false) := by
  have h := get_config_deprecated fsApp "app.cfg" false
  exact ⟨h.1, h.2.2 rfl⟩

/-- C10: after a successful construction with no local-path override, the
recorded local filename is the unforced derived path; when the derived
candidate is not a file on disk, the recorded filename is the master path
itself while the loader attempted the forced derived candidate — the
recorded path and the attempted path differ. -/
theorem recorded_local_filename_vs_attempted (fs : FileSystem)
    (config_filename : String) (ws : List ConfigWarning) (cfg : ProsperConfig)
    (h : ProsperConfig.init fs config_filename Option.none
      = Except.ok (ws, cfg)) :
    cfg.local_config_filename = get_local_config_filepath fs config_filename false
    ∧ (isfile fs (pyReplace config_filename ".cfg" "_local.cfg") = false →
        cfg.local_config_filename = config_filename
        ∧ localSourcePath fs config_filename Option.none
            = pyReplace config_filename ".cfg" "_local.cfg") := by
  cases hg : get_configs fs config_filename Option.none with
  | error e =>
    rw [ProsperConfig.init, hg] at h
    exact absurd h (by simp)
  | ok r =>
    rw [ProsperConfig.init, hg] at h
    simp at h
    obtain ⟨hw, hcfg⟩ := h
    subst hcfg
    refine ⟨rfl, fun hiso => ?_⟩
    constructor
    · simp [get_local_config_filepath, hiso]
    · simp [localSourcePath, get_local_config_filepath]

/-- Witness for C10: for the filesystem holding only config.cfg the
recorded local filename is config.cfg, the attempted path is
config_local.cfg, and the two differ. -/
theorem recorded_local_filename_vs_attempted_witness :
    (ProsperConfig.mk "config.cfg" "config.cfg"
        [("api", [("timeout", "30")])] Option.none).local_config_filename
      = "config.cfg"
    ∧ localSourcePath fsApiMasterOnly "config.cfg" Option.none
        = pyReplace "config.cfg" ".cfg" "_local.cfg"
    ∧ pyReplace "config.cfg" ".cfg" "_local.cfg" ≠ "config.cfg" := by
  have h := recorded_local_filename_vs_attempted fsApiMasterOnly "config.cfg"
    [ConfigWarning.noLocalConfig "config_local.cfg"]
    (ProsperConfig.mk "config.cfg" "config.cfg"
      [("api", [("timeout", "30")])] Option.none)
    (by decide)
  have h2 := h.2 (by decide)
  exact ⟨h2.1, h2.2, by decide⟩

end Prosper
